import Mathlib

/-!
Verification of the agent-catalog backend (`src/index.js`).

The service keeps an ordered sequence of agent records in a single JSON file
and exposes three operations: list approved agents, get one approved agent by
id, and submit a new (unapproved) agent.  We embed the JSON data model, the
relevant JavaScript semantics (member access, `typeof`, truthiness, strict
equality against string/boolean literals), the state of the backing file, and
the three request handlers, and prove the specified properties about them.
-/

set_option autoImplicit false

/-- JSON values, as produced by `JSON.parse`.  Numbers are modelled as
integers (no claim depends on non-integer numerics).  An absent object
property reads as `null` here; this is observationally equivalent to
JavaScript `undefined` for every use in the source (strict comparison
against a string or `true`, and truthiness). -/
inductive JValue where
  | null : JValue
  | bool (b : Bool) : JValue
  | num (n : Int) : JValue
  | str (s : String) : JValue
  | arr (elems : List JValue) : JValue
  | obj (fields : List (String × JValue)) : JValue

/-- Boolean test for the JSON value `null`. -/
def jsIsNull : JValue → Bool
  | JValue.null => true
  | _ => false

/-- Boolean test for a JSON object. -/
def jsIsObj : JValue → Bool
  | JValue.obj _ => true
  | _ => false

/-- First value bound to key `k` in an object's field list; `null` (standing
for `undefined`) when absent. -/
def jsGetField : List (String × JValue) → String → JValue
  | [], _ => JValue.null
  | (k', v) :: rest, k => if k' = k then v else jsGetField rest k

/-- JavaScript property assignment `o[k] = v` on an object's field list:
replaces the first binding of `k`, or appends a new binding. -/
def jsSetField : List (String × JValue) → String → JValue → List (String × JValue)
  | [], k, v => [(k, v)]
  | (k', v') :: rest, k, v =>
    if k' = k then (k, v) :: rest else (k', v') :: jsSetField rest k v

/-- JavaScript property read `x.k`: `none` models the `TypeError` thrown by
member access on `null`; on objects it reads the field list; on primitives
and arrays the properties used by this program (`id`, `approved`, `name`)
are absent, giving `undefined` (modelled as `null`). -/
def jsMember : JValue → String → Option JValue
  | JValue.null, _ => none
  | JValue.obj fields, k => some (jsGetField fields k)
  | _, _ => some JValue.null

/-- Property read with the throwing case defaulted; used only where the
source has already ruled out `null` (or where the claim statement needs a
total predicate). -/
def memberD (x : JValue) (k : String) : JValue :=
  (jsMember x k).getD JValue.null

/-- JavaScript `typeof`. -/
def jsTypeof : JValue → String
  | JValue.null => "object"
  | JValue.bool _ => "boolean"
  | JValue.num _ => "number"
  | JValue.str _ => "string"
  | JValue.arr _ => "object"
  | JValue.obj _ => "object"

/-- JavaScript truthiness of a JSON value. -/
def jsTruthy : JValue → Bool
  | JValue.null => false
  | JValue.bool b => b
  | JValue.num n => n != 0
  | JValue.str s => s != ""
  | JValue.arr _ => true
  | JValue.obj _ => true

/-- Strict equality `x === s` against a string value `s` (the only
string-typed comparison in the source is `agent.id === requestedId`,
where `requestedId` is a string). -/
def jsEqStr : JValue → String → Bool
  | JValue.str s, t => s = t
  | _, _ => false

/-- Strict equality `x === true` (the approval gate `agent.approved === true`). -/
def jsIsTrue : JValue → Bool
  | JValue.bool b => b
  | _ => false

/-- State of the backing file `agents.json` as observed by one request:
either it is missing (`ENOENT` on read), or it exists but is not parseable
JSON (`JSON.parse` throws `SyntaxError`), or it parses to a JSON value, or
reading fails with some other I/O error. -/
inductive FileState where
  | missing : FileState
  | malformed (content : String) : FileState
  | valid (v : JValue) : FileState
  | ioError : FileState

/-- HTTP responses produced by the handlers, with their status class and the
message actually sent by the source. -/
inductive Response where
  | ok (body : JValue) : Response
  | created (body : JValue) : Response
  | badRequest (msg : String) : Response
  | notFound (msg : String) : Response
  | serverError (msg : String) : Response

/-- `agents.filter(agent => agent.approved === true)` with the possible
`TypeError` (a `null` element) threaded through as `none`. -/
def filterApproved : List JValue → Option (List JValue)
  | [] => some []
  | a :: rest =>
    match jsMember a "approved" with
    | none => none
    | some apv =>
      match filterApproved rest with
      | none => none
      | some tail => some (if jsIsTrue apv then a :: tail else tail)

/-- `agents.find(agent => agent.id === requestedId && agent.approved === true)`:
`some (some a)` is a hit, `some none` means no element matched, `none` models
a `TypeError` from accessing a property of a `null` element.  The `&&`
short-circuit of the source is preserved: `approved` is read only after the
id comparison succeeds. -/
def findApproved (requestedId : String) : List JValue → Option (Option JValue)
  | [] => some none
  | a :: rest =>
    match jsMember a "id" with
    | none => none
    | some idv =>
      if jsEqStr idv requestedId then
        match jsMember a "approved" with
        | none => none
        | some apv =>
          if jsIsTrue apv then some (some a) else findApproved requestedId rest
      else findApproved requestedId rest

/-- The approval gate as a total predicate, for specification statements:
`agent.approved === true`. -/
def approvedP (a : JValue) : Bool :=
  jsIsTrue (memberD a "approved")

/-- The lookup predicate of the get handler as a total predicate:
`agent.id === requestedId && agent.approved === true`. -/
def matchP (requestedId : String) (a : JValue) : Bool :=
  jsEqStr (memberD a "id") requestedId && jsIsTrue (memberD a "approved")

/-- Handler of `GET /api/agents` (source lines 17–36). -/
def listAgents : FileState → Response
  | FileState.missing => Response.ok (JValue.arr [])
  | FileState.malformed _ => Response.serverError "Error parsing agent data file."
  | FileState.ioError => Response.serverError "Error fetching agents"
  | FileState.valid v =>
    match v with
    | JValue.arr agents =>
      match filterApproved agents with
      | some approved => Response.ok (JValue.arr approved)
      | none => Response.serverError "Error fetching agents"
    | _ => Response.ok (JValue.arr [])

/-- Handler of `GET /api/agents/:id` (source lines 39–80); `requestedId` is
the percent-decoded path parameter. -/
def getAgent (requestedId : String) : FileState → Response
  | FileState.missing => Response.notFound "Agent not found"
  | FileState.malformed _ => Response.serverError "Error parsing agent data file."
  | FileState.ioError => Response.serverError "Error fetching agent details"
  | FileState.valid v =>
    match v with
    | JValue.arr agents =>
      match findApproved requestedId agents with
      | some (some agent) => Response.ok agent
      | some none => Response.notFound "Agent not found or not approved"
      | none => Response.serverError "Error fetching agent details"
    | _ => Response.serverError "Error reading agent data."

/-- The validation of the submit handler (source line 87):
`!newAgent || typeof newAgent !== 'object' || !newAgent.name`, with the
same left-to-right short-circuit (`.name` is only reached on non-null
object-typed values, where member access cannot throw). -/
def invalidBody (body : JValue) : Bool :=
  !(jsTruthy body) || (jsTypeof body != "object") || !(jsTruthy (memberD body "name"))

/-- `newAgent.approved = false` (source line 92).  Validation guarantees the
body is an object when this runs; other values are returned unchanged. -/
def prepareAgent : JValue → JValue
  | JValue.obj fields => JValue.obj (jsSetField fields "approved" (JValue.bool false))
  | v => v

/-- The 201 response body of the submit handler (source line 138):
`{ message: ..., agent: newAgent }`. -/
def submitRespBody (agent : JValue) : JValue :=
  JValue.obj
    [("message", JValue.str "Agent submitted successfully and awaiting approval"),
     ("agent", agent)]

/-- Handler of `POST /api/submit-agent` (source lines 83–149).  Returns the
response together with the resulting state of the backing file. -/
def submitAgent (body : JValue) (st : FileState) : Response × FileState :=
  if invalidBody body then
    (Response.badRequest "Invalid agent data submitted", st)
  else
    let newAgent := prepareAgent body
    match st with
    | FileState.missing =>
      (Response.created (submitRespBody newAgent),
       FileState.valid (JValue.arr [newAgent]))
    | FileState.malformed c =>
      (Response.serverError "Failed to parse existing agent data. Cannot add new agent.",
       FileState.malformed c)
    | FileState.ioError =>
      (Response.serverError "Error saving agent data", FileState.ioError)
    | FileState.valid v =>
      let agents := match v with | JValue.arr l => l | _ => []
      (Response.created (submitRespBody newAgent),
       FileState.valid (JValue.arr (agents ++ [newAgent])))

/-- A JSON array test, `Array.isArray`. -/
def jsIsArr : JValue → Bool
  | JValue.arr _ => true
  | _ => false

/-- Agent records of the concrete scenario in the specification: `a1` is
approved, `a2` is not. -/
def demoA1 : JValue :=
  JValue.obj [("id", JValue.str "a1"), ("name", JValue.str "Foo"),
              ("approved", JValue.bool true)]

def demoA2 : JValue :=
  JValue.obj [("id", JValue.str "a2"), ("name", JValue.str "Bar"),
              ("approved", JValue.bool false)]

def demoStore : List JValue := [demoA1, demoA2]

def demoBody : JValue := JValue.obj [("name", JValue.str "Baz")]

/-- Records whose `approved` field holds truthy non-boolean values. -/
def demoT1 : JValue :=
  JValue.obj [("id", JValue.str "t1"), ("approved", JValue.str "true")]

def demoT2 : JValue :=
  JValue.obj [("id", JValue.str "t2"), ("approved", JValue.num 1)]

def demoStoreT : List JValue := [demoT1, demoT2, demoA1]

theorem jsMember_of_not_null (a : JValue) (k : String) (h : jsIsNull a = false) :
    jsMember a k = some (memberD a k) := by
  cases a <;> simp_all [jsIsNull, jsMember, memberD]

theorem jsIsTrue_eq_true_iff (v : JValue) : jsIsTrue v = true ↔ v = JValue.bool true := by
  cases v <;> simp [jsIsTrue]

theorem jsIsTrue_eq_false_iff (v : JValue) : jsIsTrue v = false ↔ v ≠ JValue.bool true := by
  cases v <;> simp [jsIsTrue]

theorem filterApproved_eq_filter :
    ∀ (l : List JValue), (∀ a ∈ l, jsIsNull a = false) →
      filterApproved l = some (l.filter approvedP)
  | [], _ => rfl
  | a :: rest, h => by
    have ha := jsMember_of_not_null a "approved" (h a (List.mem_cons_self a rest))
    have ih := filterApproved_eq_filter rest (fun x hx => h x (List.mem_cons_of_mem a hx))
    rw [List.filter_cons]
    simp only [filterApproved, ha, ih, approvedP]

theorem findApproved_eq_find :
    ∀ (i : String) (l : List JValue), (∀ a ∈ l, jsIsNull a = false) →
      findApproved i l = some (l.find? (matchP i))
  | _, [], _ => rfl
  | i, a :: rest, h => by
    have hid := jsMember_of_not_null a "id" (h a (List.mem_cons_self a rest))
    have hap := jsMember_of_not_null a "approved" (h a (List.mem_cons_self a rest))
    have ih := findApproved_eq_find i rest (fun x hx => h x (List.mem_cons_of_mem a hx))
    simp only [findApproved, hid, hap, ih]
    by_cases h1 : jsEqStr (memberD a "id") i
    · by_cases h2 : jsIsTrue (memberD a "approved") <;>
        simp [h1, h2, List.find?_cons, matchP]
    · simp [h1, List.find?_cons, matchP]

theorem jsGetField_jsSetField :
    ∀ (fs : List (String × JValue)) (k : String) (v : JValue),
      jsGetField (jsSetField fs k v) k = v
  | [], k, v => by simp [jsSetField, jsGetField]
  | (k', v') :: rest, k, v => by
    by_cases h : k' = k
    · simp [jsSetField, h, jsGetField]
    · simp [jsSetField, h, jsGetField, jsGetField_jsSetField rest k v]

theorem invalidBody_eq_false_obj (body : JValue) (h : invalidBody body = false) :
    ∃ fs, body = JValue.obj fs ∧ jsTruthy (jsGetField fs "name") = true := by
  cases body <;>
    simp_all [invalidBody, jsTruthy, jsTypeof, memberD, jsMember]

theorem prepareAgent_approved (body : JValue) (h : invalidBody body = false) :
    memberD (prepareAgent body) "approved" = JValue.bool false := by
  obtain ⟨fs, rfl, -⟩ := invalidBody_eq_false_obj body h
  simp [prepareAgent, memberD, jsMember, jsGetField_jsSetField]

theorem prepareAgent_not_null (body : JValue) (h : invalidBody body = false) :
    jsIsNull (prepareAgent body) = false := by
  obtain ⟨fs, rfl, -⟩ := invalidBody_eq_false_obj body h
  simp [prepareAgent, jsIsNull]

example :
    listAgents (FileState.valid (JValue.arr
      [JValue.obj [("id", JValue.str "a1"), ("approved", JValue.bool true)],
       JValue.obj [("id", JValue.str "a2"), ("approved", JValue.bool false)]])) =
    Response.ok (JValue.arr
      [JValue.obj [("id", JValue.str "a1"), ("approved", JValue.bool true)]]) := rfl

example :
    getAgent "a2" (FileState.valid (JValue.arr
      [JValue.obj [("id", JValue.str "a1"), ("approved", JValue.bool true)],
       JValue.obj [("id", JValue.str "a2"), ("approved", JValue.bool false)]])) =
    Response.notFound "Agent not found or not approved" := rfl

example :
    submitAgent (JValue.obj [("name", JValue.str "Baz")]) FileState.missing =
    (Response.created (submitRespBody
       (JValue.obj [("name", JValue.str "Baz"), ("approved", JValue.bool false)])),
     FileState.valid (JValue.arr
       [JValue.obj [("name", JValue.str "Baz"), ("approved", JValue.bool false)]])) := rfl

/-- Claim C1: for every store (whose elements are records, hence not `null`)
and identifier, the get handler returns the first record matching
`id === requestedId && approved === true` when one exists, and otherwise a
single not-found response that does not distinguish "id exists but
unapproved" from "id does not exist"; consequently it returns a record iff
such a matching record is in the store. -/
theorem get_returns_first_approved_match (agents : List JValue) (i : String)
    (h : ∀ a ∈ agents, jsIsNull a = false) :
    (getAgent i (FileState.valid (JValue.arr agents)) =
      match agents.find? (matchP i) with
      | some r => Response.ok r
      | none => Response.notFound "Agent not found or not approved") ∧
    ((∃ r, getAgent i (FileState.valid (JValue.arr agents)) = Response.ok r) ↔
      ∃ a ∈ agents, matchP i a = true) := by
  have hf := findApproved_eq_find i agents h
  have hmain : getAgent i (FileState.valid (JValue.arr agents)) =
      match agents.find? (matchP i) with
      | some r => Response.ok r
      | none => Response.notFound "Agent not found or not approved" := by
    simp only [getAgent, hf]
    cases agents.find? (matchP i) <;> rfl
  refine ⟨hmain, ?_⟩
  rw [hmain]
  cases hfind : agents.find? (matchP i) with
  | none =>
    constructor
    · rintro ⟨r, hr⟩
      exact absurd hr (by simp)
    · rintro ⟨a, ha, hpa⟩
      have := List.find?_eq_none.mp hfind a ha
      simp [hpa] at this
  | some r =>
    constructor
    · rintro -
      exact ⟨r, List.mem_of_find?_eq_some hfind, List.find?_some hfind⟩
    · rintro -
      exact ⟨r, rfl⟩

theorem get_returns_first_approved_match_witness :
    getAgent "a1" (FileState.valid (JValue.arr demoStore)) = Response.ok demoA1 :=
  (get_returns_first_approved_match demoStore "a1" (by decide)).1.trans rfl

/-- Claim C2: the list handler returns exactly the subsequence of the store
consisting of the records whose `approved` field strictly equals `true`,
preserving the original stored order (`List.filter` is order-preserving,
and the result is a sublist of the store). -/
theorem list_returns_approved_subsequence (agents : List JValue)
    (h : ∀ a ∈ agents, jsIsNull a = false) :
    listAgents (FileState.valid (JValue.arr agents)) =
      Response.ok (JValue.arr (agents.filter approvedP)) ∧
    (agents.filter approvedP).Sublist agents := by
  refine ⟨?_, List.filter_sublist agents⟩
  simp only [listAgents, filterApproved_eq_filter agents h]

theorem list_returns_approved_subsequence_witness :
    listAgents (FileState.valid (JValue.arr demoStore)) =
      Response.ok (JValue.arr (demoStore.filter approvedP)) ∧
    (demoStore.filter approvedP).Sublist demoStore :=
  list_returns_approved_subsequence demoStore (by decide)

/-- Claim C3: for every payload that passes validation, the submit handler
forces `approved` to the boolean `false` (overwriting any client-supplied
value), and — whenever the read succeeds (file missing or parseable) — the
stored record (appended last) and the record echoed inside the 201 response
body are both this prepared record, whose `approved` field is `false`. -/
theorem submit_forces_approved_false (body : JValue) (st : FileState)
    (hv : invalidBody body = false)
    (hst : st = FileState.missing ∨ ∃ v, st = FileState.valid v) :
    memberD (prepareAgent body) "approved" = JValue.bool false ∧
    ∃ stored : List JValue,
      submitAgent body st =
        (Response.created (submitRespBody (prepareAgent body)),
         FileState.valid (JValue.arr stored)) ∧
      stored.getLast? = some (prepareAgent body) := by
  refine ⟨prepareAgent_approved body hv, ?_⟩
  rcases hst with rfl | ⟨v, rfl⟩
  · exact ⟨[prepareAgent body], by simp [submitAgent, hv], rfl⟩
  · refine ⟨(match v with | JValue.arr l => l | _ => []) ++ [prepareAgent body],
      ?_, List.getLast?_concat _⟩
    simp [submitAgent, hv]

theorem submit_forces_approved_false_witness :
    memberD (prepareAgent demoBody) "approved" = JValue.bool false :=
  (submit_forces_approved_false demoBody (FileState.valid (JValue.arr demoStore))
    (by decide) (Or.inr ⟨JValue.arr demoStore, rfl⟩)).1

/-- Claim C4: on a malformed (unparseable) backing file, the list handler and
the get handler answer 500, and the submit handler (on a payload passing
validation) answers 500 and leaves the file state unchanged: no write
happens on a malformed store. -/
theorem malformed_store_fatal (c i : String) (body : JValue)
    (hv : invalidBody body = false) :
    listAgents (FileState.malformed c) =
      Response.serverError "Error parsing agent data file." ∧
    getAgent i (FileState.malformed c) =
      Response.serverError "Error parsing agent data file." ∧
    submitAgent body (FileState.malformed c) =
      (Response.serverError "Failed to parse existing agent data. Cannot add new agent.",
       FileState.malformed c) := by
  refine ⟨rfl, rfl, ?_⟩
  simp [submitAgent, hv]

theorem malformed_store_fatal_witness :
    listAgents (FileState.malformed "truncated") =
      Response.serverError "Error parsing agent data file." ∧
    getAgent "a1" (FileState.malformed "truncated") =
      Response.serverError "Error parsing agent data file." ∧
    submitAgent demoBody (FileState.malformed "truncated") =
      (Response.serverError "Failed to parse existing agent data. Cannot add new agent.",
       FileState.malformed "truncated") :=
  malformed_store_fatal "truncated" "a1" demoBody (by decide)

/-- Claim C5: on a missing backing file, the list handler answers 200 with an
empty array, the get handler answers not-found for every identifier, and the
submit handler (valid payload) succeeds and creates the file containing the
one-element array holding exactly the submitted (prepared) record. -/
theorem missing_store_handling (i : String) (body : JValue)
    (hv : invalidBody body = false) :
    listAgents FileState.missing = Response.ok (JValue.arr []) ∧
    getAgent i FileState.missing = Response.notFound "Agent not found" ∧
    submitAgent body FileState.missing =
      (Response.created (submitRespBody (prepareAgent body)),
       FileState.valid (JValue.arr [prepareAgent body])) := by
  refine ⟨rfl, rfl, ?_⟩
  simp [submitAgent, hv]

theorem missing_store_handling_witness :
    listAgents FileState.missing = Response.ok (JValue.arr []) ∧
    getAgent "a1" FileState.missing = Response.notFound "Agent not found" ∧
    submitAgent demoBody FileState.missing =
      (Response.created (submitRespBody (prepareAgent demoBody)),
       FileState.valid (JValue.arr [prepareAgent demoBody])) :=
  missing_store_handling "a1" demoBody (by decide)

/-- Claim C6: on a backing file that parses to a non-array JSON value the
three handlers diverge: list answers 200 with an empty array, get answers
500 ("Error reading agent data."), and submit (valid payload) reinitializes
the working sequence to empty and proceeds, so the resulting file holds
exactly the one new record. -/
theorem nonarray_store_divergence (v : JValue) (i : String) (body : JValue)
    (hna : jsIsArr v = false) (hv : invalidBody body = false) :
    listAgents (FileState.valid v) = Response.ok (JValue.arr []) ∧
    getAgent i (FileState.valid v) = Response.serverError "Error reading agent data." ∧
    submitAgent body (FileState.valid v) =
      (Response.created (submitRespBody (prepareAgent body)),
       FileState.valid (JValue.arr [prepareAgent body])) := by
  cases v <;> simp_all [jsIsArr, listAgents, getAgent, submitAgent]

theorem nonarray_store_divergence_witness :
    listAgents (FileState.valid (JValue.num 42)) = Response.ok (JValue.arr []) ∧
    getAgent "a1" (FileState.valid (JValue.num 42)) =
      Response.serverError "Error reading agent data." ∧
    submitAgent demoBody (FileState.valid (JValue.num 42)) =
      (Response.created (submitRespBody (prepareAgent demoBody)),
       FileState.valid (JValue.arr [prepareAgent demoBody])) :=
  nonarray_store_divergence (JValue.num 42) "a1" demoBody (by decide) (by decide)

theorem invalidBody_of_claim (body : JValue)
    (h : jsIsNull body = true ∨ jsIsObj body = false ∨
      jsTruthy (memberD body "name") = false) :
    invalidBody body = true := by
  cases body <;>
    simp_all [jsIsNull, jsIsObj, invalidBody, jsTruthy, jsTypeof, memberD, jsMember]

/-- Claim C7: a payload that is `null`, or not an object (an array or a
primitive), or whose `name` field is not truthy (absent or empty), is
rejected with 400 "Invalid agent data submitted"; the backing file state is
returned unchanged, and the outcome does not depend on the file state at
all — no store access is performed. -/
theorem invalid_payload_rejected_no_store_access (body : JValue) (st : FileState)
    (h : jsIsNull body = true ∨ jsIsObj body = false ∨
      jsTruthy (memberD body "name") = false) :
    submitAgent body st = (Response.badRequest "Invalid agent data submitted", st) := by
  simp [submitAgent, invalidBody_of_claim body h]

theorem invalid_payload_rejected_no_store_access_witness :
    submitAgent (JValue.obj [("approved", JValue.bool true)])
        (FileState.valid (JValue.arr demoStore)) =
      (Response.badRequest "Invalid agent data submitted",
       FileState.valid (JValue.arr demoStore)) :=
  invalid_payload_rejected_no_store_access (JValue.obj [("approved", JValue.bool true)])
    (FileState.valid (JValue.arr demoStore)) (Or.inr (Or.inr (by decide)))

/-- Claim C8: a successful submit on store `agents` yields exactly
`agents ++ [prepared record]`: all pre-existing records are kept unchanged
and in order, the length grows by exactly one, and no deduplication occurs —
resubmitting the identical payload appends yet another copy, even when the
prepared record is already present. -/
theorem submit_appends_record (body : JValue) (agents : List JValue)
    (hv : invalidBody body = false) :
    submitAgent body (FileState.valid (JValue.arr agents)) =
      (Response.created (submitRespBody (prepareAgent body)),
       FileState.valid (JValue.arr (agents ++ [prepareAgent body]))) ∧
    (agents ++ [prepareAgent body]).length = agents.length + 1 ∧
    (submitAgent body (FileState.valid (JValue.arr (agents ++ [prepareAgent body])))).2 =
      FileState.valid (JValue.arr (agents ++ [prepareAgent body, prepareAgent body])) := by
  refine ⟨by simp [submitAgent, hv], by simp, ?_⟩
  simp [submitAgent, hv]

theorem submit_appends_record_witness :
    submitAgent demoBody (FileState.valid (JValue.arr demoStore)) =
      (Response.created (submitRespBody (prepareAgent demoBody)),
       FileState.valid (JValue.arr (demoStore ++ [prepareAgent demoBody]))) ∧
    (demoStore ++ [prepareAgent demoBody]).length = demoStore.length + 1 ∧
    (submitAgent demoBody
        (FileState.valid (JValue.arr (demoStore ++ [prepareAgent demoBody])))).2 =
      FileState.valid
        (JValue.arr (demoStore ++ [prepareAgent demoBody, prepareAgent demoBody])) :=
  submit_appends_record demoBody demoStore (by decide)

/-- Claim C9: a successful submit followed (with no intervening external
modification) by the list operation never shows the newly submitted record:
the list output is the approved filter of the new store, and the prepared
record (whose `approved` is `false`) is not an element of it. -/
theorem submit_then_list_hides_new_record (body : JValue) (agents : List JValue)
    (hv : invalidBody body = false) (h : ∀ a ∈ agents, jsIsNull a = false) :
    listAgents (submitAgent body (FileState.valid (JValue.arr agents))).2 =
      Response.ok (JValue.arr ((agents ++ [prepareAgent body]).filter approvedP)) ∧
    prepareAgent body ∉ (agents ++ [prepareAgent body]).filter approvedP := by
  have hall : ∀ a ∈ agents ++ [prepareAgent body], jsIsNull a = false := by
    intro a ha
    rcases List.mem_append.mp ha with h1 | h1
    · exact h a h1
    · rw [List.mem_singleton.mp h1]
      exact prepareAgent_not_null body hv
  constructor
  · have hst : (submitAgent body (FileState.valid (JValue.arr agents))).2 =
        FileState.valid (JValue.arr (agents ++ [prepareAgent body])) := by
      simp [submitAgent, hv]
    rw [hst]
    simp only [listAgents, filterApproved_eq_filter _ hall]
  · intro hmem
    have hp := (List.mem_filter.mp hmem).2
    rw [approvedP, prepareAgent_approved body hv] at hp
    simp [jsIsTrue] at hp

theorem submit_then_list_hides_new_record_witness :
    listAgents (submitAgent demoBody (FileState.valid (JValue.arr demoStore))).2 =
      Response.ok (JValue.arr ((demoStore ++ [prepareAgent demoBody]).filter approvedP)) ∧
    prepareAgent demoBody ∉ (demoStore ++ [prepareAgent demoBody]).filter approvedP :=
  submit_then_list_hides_new_record demoBody demoStore (by decide) (by decide)

/-- Claim C10: the approval gate is strict equality with the boolean `true`.
Any record of the store whose `approved` field is anything other than the
boolean `true` — including truthy non-boolean values such as the string
`"true"` or the number `1` — is excluded from the list output and can never
be the record returned by the get handler. -/
theorem approval_gate_is_strict (agents : List JValue) (i : String) (a : JValue)
    (h : ∀ x ∈ agents, jsIsNull x = false) (_ha : a ∈ agents)
    (_hobj : jsIsObj a = true)
    (hap : memberD a "approved" ≠ JValue.bool true) :
    (∀ out, listAgents (FileState.valid (JValue.arr agents)) =
        Response.ok (JValue.arr out) → a ∉ out) ∧
    getAgent i (FileState.valid (JValue.arr agents)) ≠ Response.ok a := by
  have hpa : approvedP a = false := by
    rw [approvedP, jsIsTrue_eq_false_iff]
    exact hap
  constructor
  · intro out hout hmem
    have hlist : listAgents (FileState.valid (JValue.arr agents)) =
        Response.ok (JValue.arr (agents.filter approvedP)) := by
      simp only [listAgents, filterApproved_eq_filter agents h]
    rw [hlist] at hout
    have hone : JValue.arr (agents.filter approvedP) = JValue.arr out := by
      injection hout
    have htwo : agents.filter approvedP = out := by
      injection hone
    rw [← htwo] at hmem
    have := (List.mem_filter.mp hmem).2
    rw [hpa] at this
    exact Bool.false_ne_true this
  · intro hget
    have hf := findApproved_eq_find i agents h
    cases hfind : agents.find? (matchP i) with
    | none =>
      have hres : getAgent i (FileState.valid (JValue.arr agents)) =
          Response.notFound "Agent not found or not approved" := by
        simp only [getAgent, hf, hfind]
      rw [hres] at hget
      exact Response.noConfusion hget
    | some r =>
      have hres : getAgent i (FileState.valid (JValue.arr agents)) = Response.ok r := by
        simp only [getAgent, hf, hfind]
      rw [hres] at hget
      have hr : r = a := by injection hget
      have hp := List.find?_some hfind
      rw [hr, matchP] at hp
      simp only [Bool.and_eq_true] at hp
      have := hp.2
      rw [jsIsTrue_eq_true_iff] at this
      exact hap this

theorem approval_gate_is_strict_witness :
    getAgent "t1" (FileState.valid (JValue.arr demoStoreT)) ≠ Response.ok demoT1 :=
  (approval_gate_is_strict demoStoreT "t1" demoT1 (by decide)
    (List.mem_cons_self demoT1 [demoT2, demoA1]) (by decide)
    ((jsIsTrue_eq_false_iff (memberD demoT1 "approved")).mp (by decide))).2
